import Mathlib

/-!
Shallow embedding of `src/main.py` (AZ Media Transcript API) and proofs of
the spec's claims about it.

The source is a FastAPI service with two routes.  `GET /` returns a static
liveness payload; all interesting behaviour is in `extract_video_id`
(src/main.py lines 30-47) and the `POST /transcripts` handler
`get_transcripts` (lines 55-114).  The external library call
`YouTubeTranscriptApi.get_transcript(video_id, languages=["en"])` is
modelled as an explicit `Provider` function returning a tagged result:
either a chunk list or one of the three caught exception classes
(`TranscriptsDisabled`, `NoTranscriptFound`, `VideoUnavailable`, each
carrying its `str(e)` rendering) or any other exception (carrying its
`str(e)` rendering).  With the provider made explicit the handler is a
pure function, so Python's per-item try/except becomes a `match` on the
provider's tagged result.
-/

namespace AZMedia

/-- A character of the identifier character class `[a-zA-Z0-9_-]` used by
both regular expressions in `extract_video_id`. -/
def isIdChar (c : Char) : Bool :=
  ('a' ≤ c && c ≤ 'z') || ('A' ≤ c && c ≤ 'Z') || ('0' ≤ c && c ≤ '9') ||
    c == '_' || c == '-'

/-- The capture group `([a-zA-Z0-9_-]{11})` applied at the current
position: succeeds iff at least 11 characters remain and the next 11 all
lie in the identifier class, capturing exactly those 11 characters. -/
def grabId (s : List Char) : Option (List Char) :=
  if (s.take 11).length = 11 ∧ (s.take 11).all isIdChar = true then
    some (s.take 11)
  else none

/-- One attempt of a pattern `<literal>([a-zA-Z0-9_-]{11})` at a fixed
position: the literal must be a prefix of the remaining input, then the
capture group runs on what follows it. -/
def matchAt (pat s : List Char) : Option (List Char) :=
  if pat.isPrefixOf s then grabId (s.drop pat.length) else none

/-- `re.search` for such a pattern: try every position from the left and
return the capture of the first position where the whole pattern
matches. -/
def searchPat (pat : List Char) : List Char → Option (List Char)
  | [] => none
  | c :: cs =>
    match matchAt pat (c :: cs) with
    | some t => some t
    | none => searchPat pat cs

/-- The literal part of the short-link pattern `youtu\.be/([a-zA-Z0-9_-]{11})`
(src/main.py line 38); the `\.` matches only a literal dot. -/
def shortLinkPat : List Char := "youtu.be/".data

/-- The literal part of the watch-link pattern `v=([a-zA-Z0-9_-]{11})`
(src/main.py line 43). -/
def watchPat : List Char := "v=".data

/-- src/main.py lines 30-47: search for the short-link pattern first and
return its capture; otherwise search for the `v=` pattern and return its
capture; otherwise `None`.  (The Python code's later truthiness test
`if not video_id` coincides with an `Option` match because a successful
capture is always 11 characters, never the empty string.) -/
def extract_video_id (url : String) : Option String :=
  match searchPat shortLinkPat url.data with
  | some t => some (String.mk t)
  | none =>
    match searchPat watchPat url.data with
    | some t => some (String.mk t)
    | none => none

/-- Request body of `POST /transcripts` (src/main.py lines 19-20). -/
structure TranscriptRequest where
  video_urls : List String
deriving DecidableEq, Repr

/-- Per-item output record (src/main.py lines 23-27). -/
structure VideoTranscript where
  video_url : String
  transcript : String
  success : Bool
  error : Option String
deriving DecidableEq, Repr

/-- A transcript chunk as returned by the provider.  The library also
attaches `start` and `duration` timing fields, but the handler only ever
reads `chunk["text"]` (src/main.py line 85), so only that field is
modelled. -/
structure Chunk where
  text : String
deriving DecidableEq, Repr

/-- Tagged rendering of the outcomes of
`YouTubeTranscriptApi.get_transcript`: a chunk list, one of the three
exception classes caught by name on line 95 (each carrying its `str(e)`
string), or any other exception (line 104, carrying its `str(e)`
string). -/
inductive ProviderResult where
  | ok (chunks : List Chunk)
  | transcriptsDisabled (msg : String)
  | noTranscriptFound (msg : String)
  | videoUnavailable (msg : String)
  | otherFailure (msg : String)
deriving DecidableEq, Repr

/-- The external transcript provider, as a function of the video id and
the language preference list. -/
abbrev Provider := String → List String → ProviderResult

/-- The body of the `for url in req.video_urls` loop (src/main.py lines
67-112): one `VideoTranscript` per input URL. -/
def processUrl (provider : Provider) (url : String) : VideoTranscript :=
  match extract_video_id url with
  | none =>
    { video_url := url, transcript := "", success := false,
      error := some "Could not extract video ID from URL." }
  | some video_id =>
    match provider video_id ["en"] with
    | .ok transcript_data =>
      { video_url := url,
        transcript := String.intercalate " " (transcript_data.map Chunk.text),
        success := true, error := none }
    | .transcriptsDisabled e =>
      { video_url := url, transcript := "", success := false, error := some e }
    | .noTranscriptFound e =>
      { video_url := url, transcript := "", success := false, error := some e }
    | .videoUnavailable e =>
      { video_url := url, transcript := "", success := false, error := some e }
    | .otherFailure e =>
      { video_url := url, transcript := "", success := false,
        error := some ("Unexpected error: " ++ e) }

/-- src/main.py lines 55-114: the `POST /transcripts` handler.  The loop
appends one result per URL in input order, i.e. it maps `processUrl` over
the list. -/
def get_transcripts (provider : Provider) (req : TranscriptRequest) :
    List VideoTranscript :=
  req.video_urls.map (processUrl provider)

/-- Reading of the spec sentence "concatenate the chunks' text fields
with single-space separators into one string, preserving the chunks'
original order": texts in order with exactly one space between
consecutive texts. -/
def specJoin : List String → String
  | [] => ""
  | [t] => t
  | t :: ts => t ++ " " ++ specJoin ts

/-! ### Lemmas about the search machinery -/

/-- `matchAt` never succeeds on the empty remainder: either the literal
fails to be a prefix, or (for an empty literal) the capture group lacks
its 11 characters. -/
theorem matchAt_nil (pat : List Char) : matchAt pat [] = none := by
  cases pat with
  | nil => simp [matchAt, grabId, List.isPrefixOf]
  | cons p ps => simp [matchAt, List.isPrefixOf]

/-- Past the end of the input, `matchAt` fails. -/
theorem matchAt_drop_of_le (pat l : List Char) (i : Nat) (h : l.length ≤ i) :
    matchAt pat (l.drop i) = none := by
  rw [List.drop_eq_nil_of_le h]
  exact matchAt_nil pat

/-- `re.search` semantics, success direction: if the pattern matches at
position `i` and at no earlier position, the search returns the capture
from position `i`. -/
theorem searchPat_eq_some_of_leftmost (pat : List Char) :
    ∀ (l : List Char) (i : Nat) (t : List Char),
      matchAt pat (l.drop i) = some t →
      (∀ j < i, matchAt pat (l.drop j) = none) →
      searchPat pat l = some t := by
  intro l i
  induction i generalizing l with
  | zero =>
    intro t hm _
    cases l with
    | nil => rw [List.drop_nil] at hm; rw [matchAt_nil] at hm; exact absurd hm (by simp)
    | cons c cs =>
      rw [List.drop_zero] at hm
      simp only [searchPat, hm]
  | succ i ih =>
    intro t hm hmin
    cases l with
    | nil => rw [List.drop_nil] at hm; rw [matchAt_nil] at hm; exact absurd hm (by simp)
    | cons c cs =>
      have h0 : matchAt pat (c :: cs) = none := by
        have := hmin 0 (Nat.succ_pos i)
        rwa [List.drop_zero] at this
      simp only [searchPat, h0]
      exact ih cs t (by rwa [List.drop_succ_cons] at hm)
        (fun j hj => by
          have := hmin (j + 1) (Nat.succ_lt_succ hj)
          rwa [List.drop_succ_cons] at this)

/-- `re.search` semantics, failure direction: if the pattern matches at
no position, the search fails. -/
theorem searchPat_eq_none_of_noMatch (pat : List Char) :
    ∀ l : List Char, (∀ i, matchAt pat (l.drop i) = none) →
      searchPat pat l = none := by
  intro l
  induction l with
  | nil => intro _; rfl
  | cons c cs ih =>
    intro h
    have h0 : matchAt pat (c :: cs) = none := by
      have := h 0
      rwa [List.drop_zero] at this
    simp only [searchPat, h0]
    exact ih (fun i => by
      have := h (i + 1)
      rwa [List.drop_succ_cons] at this)

/-- Conversely, a failed search means no position matches. -/
theorem noMatch_of_searchPat_eq_none (pat : List Char) :
    ∀ l : List Char, searchPat pat l = none →
      ∀ i, matchAt pat (l.drop i) = none := by
  intro l
  induction l with
  | nil => intro _ i; rw [List.drop_nil]; exact matchAt_nil pat
  | cons c cs ih =>
    intro h i
    have hcase : matchAt pat (c :: cs) = none ∧ searchPat pat cs = none := by
      by_cases h0 : matchAt pat (c :: cs) = none
      · refine ⟨h0, ?_⟩
        simpa only [searchPat, h0] using h
      · obtain ⟨t, ht⟩ := Option.ne_none_iff_exists'.mp h0
        simp only [searchPat, ht] at h
        exact absurd h (by simp)
    cases i with
    | zero => rw [List.drop_zero]; exact hcase.1
    | succ i => rw [List.drop_succ_cons]; exact ih hcase.2 i

/-- To check that no position matches, it is enough to check positions
inside the input. -/
theorem noMatch_of_ball (pat l : List Char)
    (h : ∀ i < l.length, matchAt pat (l.drop i) = none) :
    ∀ i, matchAt pat (l.drop i) = none := by
  intro i
  by_cases hi : i < l.length
  · exact h i hi
  · exact matchAt_drop_of_le pat l i (Nat.le_of_not_lt hi)

/-! ### `" ".join` equals the spec's single-space concatenation -/

theorem intercalate_go_eq (sep : String) :
    ∀ (as : List String) (acc : String),
      String.intercalate.go acc sep as =
        acc ++ (as.map (fun a => sep ++ a)).foldr (· ++ ·) "" := by
  intro as
  induction as with
  | nil => intro acc; simp [String.intercalate.go]
  | cons a as ih =>
    intro acc
    simp only [String.intercalate.go, ih, List.map_cons, List.foldr_cons]
    simp [String.append_assoc]

theorem specJoin_cons_eq_foldr :
    ∀ (as : List String) (a : String),
      specJoin (a :: as) = a ++ (as.map (fun x => " " ++ x)).foldr (· ++ ·) "" := by
  intro as
  induction as with
  | nil => intro a; simp [specJoin]
  | cons b bs ih =>
    intro a
    show a ++ " " ++ specJoin (b :: bs) = _
    rw [ih b]
    simp [String.append_assoc]

/-- `String.intercalate " "` (the embedding of Python's `" ".join`)
computes exactly the spec's "single space between consecutive texts"
concatenation. -/
theorem intercalate_eq_specJoin : ∀ l : List String,
    String.intercalate " " l = specJoin l := by
  intro l
  cases l with
  | nil => rfl
  | cons a as =>
    show String.intercalate.go a " " as = _
    rw [intercalate_go_eq, specJoin_cons_eq_foldr]

/-- Every result record echoes its input URL verbatim. -/
theorem processUrl_video_url (p : Provider) (url : String) :
    (processUrl p url).video_url = url := by
  unfold processUrl
  split
  · rfl
  · split <;> rfl

/-! ### Claims -/

/-- C1: the `POST /transcripts` handler returns exactly one result per
input URL, positionally: the output length equals the input length, the
result at position `i` is the per-item processing of the URL at position
`i` (and echoes that URL verbatim in `video_url`), and the empty request
yields the empty list. -/
theorem C1_length_and_order (p : Provider) (req : TranscriptRequest) :
    (get_transcripts p req).length = req.video_urls.length ∧
    (∀ i : Nat, (get_transcripts p req)[i]? =
      (req.video_urls[i]?).map (processUrl p)) ∧
    (∀ i : Nat, ((get_transcripts p req)[i]?).map VideoTranscript.video_url =
      req.video_urls[i]?) ∧
    get_transcripts p ⟨[]⟩ = [] := by
  refine ⟨List.length_map _ _, fun i => List.getElem?_map .., fun i => ?_, rfl⟩
  rw [get_transcripts, List.getElem?_map, Option.map_map]
  cases req.video_urls[i]? with
  | none => rfl
  | some u => simp [Function.comp, processUrl_video_url]

/-- C2: when identifier extraction fails on a URL, the per-item result is
exactly the fixed failure record with the literal error message, and the
external provider is never consulted for that item: the result does not
depend on the provider at all. -/
theorem C2_extraction_failure (p q : Provider) (url : String)
    (h : extract_video_id url = none) :
    processUrl p url =
      { video_url := url, transcript := "", success := false,
        error := some "Could not extract video ID from URL." } ∧
    processUrl p url = processUrl q url := by
  unfold processUrl
  rw [h]
  exact ⟨rfl, rfl⟩

/-- C2 witness at the spec's own example URL. -/
theorem C2_extraction_failure_witness :
    extract_video_id "https://example.com/video" = none ∧
    processUrl (fun _ _ => ProviderResult.ok []) "https://example.com/video" =
      { video_url := "https://example.com/video", transcript := "",
        success := false,
        error := some "Could not extract video ID from URL." } :=
  ⟨by decide,
    (C2_extraction_failure (fun _ _ => ProviderResult.ok [])
      (fun _ _ => ProviderResult.otherFailure "boom")
      "https://example.com/video" (by decide)).1⟩

/-- C3: when extraction succeeds and the provider returns a chunk list,
the result's transcript is the chunks' `text` fields joined in their
original order with a single space between consecutive texts, with
`success = true` and `error = none`. -/
theorem C3_success_concatenation (p : Provider) (url vid : String)
    (chunks : List Chunk)
    (h1 : extract_video_id url = some vid)
    (h2 : p vid ["en"] = ProviderResult.ok chunks) :
    processUrl p url =
      { video_url := url, transcript := specJoin (chunks.map Chunk.text),
        success := true, error := none } := by
  simp only [processUrl, h1, h2, intercalate_eq_specJoin]

/-- C3 witness at the spec's own example chunks
`[{text:"Hello"}, {text:"world"}]`. -/
theorem C3_success_concatenation_witness :
    extract_video_id "https://youtu.be/dQw4w9WgXcQ" = some "dQw4w9WgXcQ" ∧
    processUrl (fun _ _ => ProviderResult.ok [⟨"Hello"⟩, ⟨"world"⟩])
        "https://youtu.be/dQw4w9WgXcQ" =
      { video_url := "https://youtu.be/dQw4w9WgXcQ", transcript := "Hello world",
        success := true, error := none } :=
  ⟨by decide,
    (C3_success_concatenation (fun _ _ => ProviderResult.ok [⟨"Hello"⟩, ⟨"world"⟩])
      "https://youtu.be/dQw4w9WgXcQ" "dQw4w9WgXcQ" [⟨"Hello"⟩, ⟨"world"⟩]
      (by decide) rfl).trans (by decide)⟩

/-- C4: when extraction succeeds and the provider raises one of the three
caught exception classes, the result is `success = false`, `error` equal
to that exception's string form, and an empty transcript. -/
theorem C4_known_provider_failures (p : Provider) (url vid m : String)
    (h1 : extract_video_id url = some vid)
    (h2 : p vid ["en"] = ProviderResult.transcriptsDisabled m ∨
          p vid ["en"] = ProviderResult.noTranscriptFound m ∨
          p vid ["en"] = ProviderResult.videoUnavailable m) :
    processUrl p url =
      { video_url := url, transcript := "", success := false,
        error := some m } := by
  rcases h2 with h2 | h2 | h2 <;> simp only [processUrl, h1, h2]

/-- C4 witness with a provider that raises the "transcripts disabled"
category. -/
theorem C4_known_provider_failures_witness :
    extract_video_id "https://youtu.be/dQw4w9WgXcQ" = some "dQw4w9WgXcQ" ∧
    processUrl (fun _ _ => ProviderResult.transcriptsDisabled "Subtitles are disabled")
        "https://youtu.be/dQw4w9WgXcQ" =
      { video_url := "https://youtu.be/dQw4w9WgXcQ", transcript := "",
        success := false, error := some "Subtitles are disabled" } :=
  ⟨by decide,
    C4_known_provider_failures
      (fun _ _ => ProviderResult.transcriptsDisabled "Subtitles are disabled")
      "https://youtu.be/dQw4w9WgXcQ" "dQw4w9WgXcQ" "Subtitles are disabled"
      (by decide) (Or.inl rfl)⟩

/-- C5: when extraction succeeds and the provider raises any failure
other than the three caught classes, the result is `success = false`,
empty transcript, and a generic wrapped message containing the
underlying failure's text.  The failure is contained per item: it
produces an ordinary record rather than escaping, and the result at any
position depends only on the URL at that position, so sibling items are
unaffected. -/
theorem C5_unknown_provider_failure (p : Provider) (url vid m : String)
    (h1 : extract_video_id url = some vid)
    (h2 : p vid ["en"] = ProviderResult.otherFailure m) :
    processUrl p url =
      { video_url := url, transcript := "", success := false,
        error := some ("Unexpected error: " ++ m) } ∧
    (∃ pre post : String, (processUrl p url).error = some (pre ++ m ++ post)) ∧
    (∀ (us vs : List String) (j : Nat), us[j]? = vs[j]? →
      (get_transcripts p ⟨us⟩)[j]? = (get_transcripts p ⟨vs⟩)[j]?) := by
  have hmain : processUrl p url =
      { video_url := url, transcript := "", success := false,
        error := some ("Unexpected error: " ++ m) } := by
    simp only [processUrl, h1, h2]
  refine ⟨hmain, ⟨"Unexpected error: ", "", ?_⟩, fun us vs j h => ?_⟩
  · rw [hmain]
    simp
  · simp only [get_transcripts, List.getElem?_map, h]

/-- C5 witness with a provider that raises an uncategorized failure. -/
theorem C5_unknown_provider_failure_witness :
    extract_video_id "https://youtu.be/dQw4w9WgXcQ" = some "dQw4w9WgXcQ" ∧
    processUrl (fun _ _ => ProviderResult.otherFailure "connection reset")
        "https://youtu.be/dQw4w9WgXcQ" =
      { video_url := "https://youtu.be/dQw4w9WgXcQ", transcript := "",
        success := false, error := some "Unexpected error: connection reset" } :=
  ⟨by decide,
    (C5_unknown_provider_failure
      (fun _ _ => ProviderResult.otherFailure "connection reset")
      "https://youtu.be/dQw4w9WgXcQ" "dQw4w9WgXcQ" "connection reset"
      (by decide) rfl).1⟩

/-- C8: in every record the handler produces, the `error` field is
populated exactly when `success` is false: `success = true` forces
`error = none`, and `success = false` forces `error = some message`. -/
theorem C8_error_iff_failure (p : Provider) (req : TranscriptRequest)
    (r : VideoTranscript) (h : r ∈ get_transcripts p req) :
    (r.success = true ↔ r.error = none) ∧
    (r.success = false ↔ ∃ m : String, r.error = some m) := by
  obtain ⟨url, -, rfl⟩ := List.exists_of_mem_map h
  unfold processUrl
  split
  · simp
  · split <;> simp

/-- C8 witness on a two-item request with one failing and one succeeding
item. -/
theorem C8_error_iff_failure_witness :
    ({ video_url := "https://example.com/video", transcript := "",
       success := false,
       error := some "Could not extract video ID from URL." } : VideoTranscript) ∈
      get_transcripts (fun _ _ => ProviderResult.ok [⟨"hi"⟩])
        ⟨["https://example.com/video", "https://youtu.be/dQw4w9WgXcQ"]⟩ ∧
    (false = true ↔ (some "Could not extract video ID from URL." : Option String) = none) ∧
    (false = false ↔ ∃ m : String,
      (some "Could not extract video ID from URL." : Option String) = some m) :=
  ⟨by decide,
    C8_error_iff_failure (fun _ _ => ProviderResult.ok [⟨"hi"⟩])
      ⟨["https://example.com/video", "https://youtu.be/dQw4w9WgXcQ"]⟩
      { video_url := "https://example.com/video", transcript := "",
        success := false,
        error := some "Could not extract video ID from URL." }
      (by decide)⟩

/-- C9: the handler is deterministic in its input and in the provider's
behaviour: providers that agree on every (identifier, language-list)
query, applied to equal requests, produce structurally identical result
lists — so the same run repeated yields the same output. -/
theorem C9_deterministic (p q : Provider) (req₁ req₂ : TranscriptRequest)
    (hpq : ∀ vid langs, p vid langs = q vid langs) (hreq : req₁ = req₂) :
    get_transcripts p req₁ = get_transcripts q req₂ := by
  subst hreq
  have hp : p = q := funext fun v => funext fun l => hpq v l
  rw [hp]

/-- C9 witness: two textually distinct but extensionally equal providers
on equal requests. -/
theorem C9_deterministic_witness :
    get_transcripts (fun _ _ => ProviderResult.ok [⟨"a"⟩])
      ⟨["https://youtu.be/dQw4w9WgXcQ"]⟩ =
    get_transcripts (fun _ langs =>
        if langs = langs then ProviderResult.ok [⟨"a"⟩] else ProviderResult.ok [])
      ⟨["https://youtu.be/dQw4w9WgXcQ"]⟩ :=
  C9_deterministic _ _ _ _ (fun _ langs => by simp) rfl

/-! ### Claims about the extractor (C6, C7, C10)

Both regular expressions are searched with `re.search`, which returns the
capture at the LEFTMOST position where the whole pattern matches.  The
spec's sentences quantify over every occurrence of a pattern in the
string ("for any URL containing ... the extractor returns that exact
token"): a string with two distinct matching occurrences refutes that
reading, and the correct statement qualifies the occurrence as the
leftmost full match.  The shared lemmas below characterise the extractor
at a leftmost occurrence; each claim's theorem applies them. -/

theorem matchAt_eq_some (pat l : List Char)
    (hpre : pat.isPrefixOf l = true)
    (hlen : ((l.drop pat.length).take 11).length = 11)
    (hall : ((l.drop pat.length).take 11).all isIdChar = true) :
    matchAt pat l = some ((l.drop pat.length).take 11) := by
  simp only [matchAt, grabId, hpre, hlen, hall, if_true, and_self, if_pos]

/-- At the leftmost position where `youtu.be/` is immediately followed by
11 identifier-class characters, the extractor returns exactly those 11
characters, whatever else (including `v=` occurrences) the string
contains. -/
theorem extract_short_leftmost (s : String) (i : Nat)
    (hpre : shortLinkPat.isPrefixOf (s.data.drop i) = true)
    (hlen : ((s.data.drop (i + shortLinkPat.length)).take 11).length = 11)
    (hall : ((s.data.drop (i + shortLinkPat.length)).take 11).all isIdChar = true)
    (hmin : ∀ j < i, matchAt shortLinkPat (s.data.drop j) = none) :
    extract_video_id s =
      some (String.mk ((s.data.drop (i + shortLinkPat.length)).take 11)) := by
  have hdrop : (s.data.drop i).drop shortLinkPat.length =
      s.data.drop (i + shortLinkPat.length) := by
    rw [List.drop_drop, Nat.add_comm]
  have hlen' : (((s.data.drop i).drop shortLinkPat.length).take 11).length = 11 := by
    rw [hdrop]; exact hlen
  have hall' : (((s.data.drop i).drop shortLinkPat.length).take 11).all isIdChar = true := by
    rw [hdrop]; exact hall
  have hm := matchAt_eq_some shortLinkPat (s.data.drop i) hpre hlen' hall'
  rw [hdrop] at hm
  unfold extract_video_id
  rw [searchPat_eq_some_of_leftmost shortLinkPat s.data i _ hm hmin]

/-- When no position matches the short-link pattern, the extractor falls
through to the `v=` pattern and likewise returns the capture of its
leftmost full match. -/
theorem extract_watch_leftmost (s : String) (i : Nat)
    (hshort : searchPat shortLinkPat s.data = none)
    (hpre : watchPat.isPrefixOf (s.data.drop i) = true)
    (hlen : ((s.data.drop (i + watchPat.length)).take 11).length = 11)
    (hall : ((s.data.drop (i + watchPat.length)).take 11).all isIdChar = true)
    (hmin : ∀ j < i, matchAt watchPat (s.data.drop j) = none) :
    extract_video_id s =
      some (String.mk ((s.data.drop (i + watchPat.length)).take 11)) := by
  have hdrop : (s.data.drop i).drop watchPat.length =
      s.data.drop (i + watchPat.length) := by
    rw [List.drop_drop, Nat.add_comm]
  have hlen' : (((s.data.drop i).drop watchPat.length).take 11).length = 11 := by
    rw [hdrop]; exact hlen
  have hall' : (((s.data.drop i).drop watchPat.length).take 11).all isIdChar = true := by
    rw [hdrop]; exact hall
  have hm := matchAt_eq_some watchPat (s.data.drop i) hpre hlen' hall'
  rw [hdrop] at hm
  unfold extract_video_id
  rw [hshort, searchPat_eq_some_of_leftmost watchPat s.data i _ hm hmin]

/-- A 12-character all-identifier prefix yields an 11-character
all-identifier prefix. -/
theorem take_eleven_of_take_twelve (l : List Char)
    (hlen : (l.take 12).length = 12) (hall : (l.take 12).all isIdChar = true) :
    (l.take 11).length = 11 ∧ (l.take 11).all isIdChar = true := by
  have heq : l.take 11 = (l.take 12).take 11 := by
    rw [List.take_take]
    norm_num
  constructor
  · rw [List.length_take] at hlen ⊢
    omega
  · rw [heq, List.all_eq_true] at *
    intro x hx
    exact hall x (List.take_subset 11 _ hx)

/-- C6 counterexample: the claim quantifies over every `youtu.be/` token
occurrence, but `re.search` returns the leftmost one.  In the string
below, `youtu.be/` is immediately followed by the 11-character token
`bbbbbbbbbbb`, yet the extractor returns `aaaaaaaaaaa`, the token of the
earlier occurrence. -/
theorem C6_counterexample :
    ("bbbbbbbbbbb" : String).length = 11 ∧
    ("bbbbbbbbbbb" : String).data.all isIdChar = true ∧
    List.IsInfix ("youtu.be/bbbbbbbbbbb" : String).data
      ("youtu.be/aaaaaaaaaaa and youtu.be/bbbbbbbbbbb" : String).data ∧
    extract_video_id "youtu.be/aaaaaaaaaaa and youtu.be/bbbbbbbbbbb" =
      some "aaaaaaaaaaa" ∧
    extract_video_id "youtu.be/aaaaaaaaaaa and youtu.be/bbbbbbbbbbb" ≠
      some "bbbbbbbbbbb" := by
  refine ⟨by decide, by decide, ⟨"youtu.be/aaaaaaaaaaa and ".data, [], by decide⟩,
    by decide, by decide⟩

/-- C6 (amended): for the LEFTMOST position at which `youtu.be/` is
immediately followed by 11 identifier-alphabet characters, the extractor
returns exactly those 11 characters — with no assumption about `v=`
occurrences, so a `v=` pattern elsewhere never overrides the short-link
capture. -/
theorem C6_short_link_precedence (s : String) (i : Nat)
    (hpre : shortLinkPat.isPrefixOf (s.data.drop i) = true)
    (hlen : ((s.data.drop (i + shortLinkPat.length)).take 11).length = 11)
    (hall : ((s.data.drop (i + shortLinkPat.length)).take 11).all isIdChar = true)
    (hmin : ∀ j < i, matchAt shortLinkPat (s.data.drop j) = none) :
    extract_video_id s =
      some (String.mk ((s.data.drop (i + shortLinkPat.length)).take 11)) :=
  extract_short_leftmost s i hpre hlen hall hmin

/-- C6 witness: a short link whose query string also contains a full
`v=`-pattern match; the short-link token wins. -/
theorem C6_short_link_precedence_witness :
    extract_video_id "https://youtu.be/dQw4w9WgXcQ?x=v=AAAAAAAAAAA" =
      some "dQw4w9WgXcQ" :=
  (C6_short_link_precedence "https://youtu.be/dQw4w9WgXcQ?x=v=AAAAAAAAAAA" 8
    (by decide) (by decide) (by decide) (by decide)).trans (by decide)

/-- C7 counterexample: same leftmost issue for the `v=` pattern.  The
string below contains `v=` immediately followed by the 11-character
token `bbbbbbbbbbb` and has no short-link match anywhere, yet the
extractor returns `aaaaaaaaaaa`, the token of the earlier `v=`
occurrence. -/
theorem C7_counterexample :
    ("bbbbbbbbbbb" : String).length = 11 ∧
    ("bbbbbbbbbbb" : String).data.all isIdChar = true ∧
    List.IsInfix ("v=bbbbbbbbbbb" : String).data
      ("v=aaaaaaaaaaa and v=bbbbbbbbbbb" : String).data ∧
    searchPat shortLinkPat ("v=aaaaaaaaaaa and v=bbbbbbbbbbb" : String).data = none ∧
    extract_video_id "v=aaaaaaaaaaa and v=bbbbbbbbbbb" = some "aaaaaaaaaaa" ∧
    extract_video_id "v=aaaaaaaaaaa and v=bbbbbbbbbbb" ≠ some "bbbbbbbbbbb" := by
  refine ⟨by decide, by decide, ⟨"v=aaaaaaaaaaa and ".data, [], by decide⟩,
    by decide, by decide, by decide⟩

/-- C7 (amended): when the short-link search fails, the extractor
returns the 11 identifier-alphabet characters following the LEFTMOST
full `v=` match; and when neither pattern matches anywhere, it returns
the not-found value `none`. -/
theorem C7_watch_link_and_failure :
    (∀ (s : String) (i : Nat),
      searchPat shortLinkPat s.data = none →
      watchPat.isPrefixOf (s.data.drop i) = true →
      ((s.data.drop (i + watchPat.length)).take 11).length = 11 →
      ((s.data.drop (i + watchPat.length)).take 11).all isIdChar = true →
      (∀ j < i, matchAt watchPat (s.data.drop j) = none) →
      extract_video_id s =
        some (String.mk ((s.data.drop (i + watchPat.length)).take 11))) ∧
    (∀ s : String, searchPat shortLinkPat s.data = none →
      searchPat watchPat s.data = none → extract_video_id s = none) := by
  constructor
  · exact fun s i hs hpre hlen hall hmin =>
      extract_watch_leftmost s i hs hpre hlen hall hmin
  · intro s h1 h2
    unfold extract_video_id
    rw [h1, h2]

/-- C7 witness: a standard watch URL (sole `v=` match, no short link)
and the spec's no-pattern example URL. -/
theorem C7_watch_link_and_failure_witness :
    extract_video_id "https://www.youtube.com/watch?v=dQw4w9WgXcQ" =
      some "dQw4w9WgXcQ" ∧
    extract_video_id "https://example.com/video" = none :=
  ⟨(C7_watch_link_and_failure.1 "https://www.youtube.com/watch?v=dQw4w9WgXcQ" 30
      (by decide) (by decide) (by decide) (by decide) (by decide)).trans (by decide),
   C7_watch_link_and_failure.2 "https://example.com/video" (by decide) (by decide)⟩

/-- C10 counterexample: the implicit claim also quantifies over every
occurrence followed by 12+ identifier characters; with two such
occurrences the extractor truncates the leftmost one, not an arbitrary
one.  Here `youtu.be/` is followed by the 12 identifier characters
`bbbbbbbbbbbb`, yet the result is not their first 11 characters but the
first 11 characters of the earlier run. -/
theorem C10_counterexample :
    ("bbbbbbbbbbbb" : String).length = 12 ∧
    ("bbbbbbbbbbbb" : String).data.all isIdChar = true ∧
    List.IsInfix ("youtu.be/bbbbbbbbbbbb" : String).data
      ("youtu.be/aaaaaaaaaaaa then youtu.be/bbbbbbbbbbbb" : String).data ∧
    extract_video_id "youtu.be/aaaaaaaaaaaa then youtu.be/bbbbbbbbbbbb" =
      some "aaaaaaaaaaa" ∧
    extract_video_id "youtu.be/aaaaaaaaaaaa then youtu.be/bbbbbbbbbbbb" ≠
      some "bbbbbbbbbbb" := by
  refine ⟨by decide, by decide, ⟨"youtu.be/aaaaaaaaaaaa then ".data, [], by decide⟩,
    by decide, by decide⟩

/-- C10 (amended): the patterns are unanchored substring matches with no
right-hand boundary check.  Consider the leftmost position where
`youtu.be/` (or, when no position matches the short-link pattern, `v=`)
fully matches, i.e. is immediately followed by 11 identifier-alphabet
characters — the position whose capture the extractor returns.  If that
position is in fact followed by 12 or more consecutive
identifier-alphabet characters, the extractor does not report failure:
it returns the first 11 of those characters.  (The leftmost FULL match
governs: an earlier occurrence followed by exactly 11 identifier
characters wins over a later one followed by 12 or more, as the
counterexample shows.) -/
theorem C10_unanchored_truncation :
    (∀ (s : String) (i : Nat),
      shortLinkPat.isPrefixOf (s.data.drop i) = true →
      ((s.data.drop (i + shortLinkPat.length)).take 12).length = 12 →
      ((s.data.drop (i + shortLinkPat.length)).take 12).all isIdChar = true →
      (∀ j < i, matchAt shortLinkPat (s.data.drop j) = none) →
      extract_video_id s ≠ none ∧
      extract_video_id s =
        some (String.mk ((s.data.drop (i + shortLinkPat.length)).take 11))) ∧
    (∀ (s : String) (i : Nat),
      searchPat shortLinkPat s.data = none →
      watchPat.isPrefixOf (s.data.drop i) = true →
      ((s.data.drop (i + watchPat.length)).take 12).length = 12 →
      ((s.data.drop (i + watchPat.length)).take 12).all isIdChar = true →
      (∀ j < i, matchAt watchPat (s.data.drop j) = none) →
      extract_video_id s ≠ none ∧
      extract_video_id s =
        some (String.mk ((s.data.drop (i + watchPat.length)).take 11))) := by
  constructor
  · intro s i hpre hlen12 hall12 hmin
    obtain ⟨hlen, hall⟩ := take_eleven_of_take_twelve _ hlen12 hall12
    have h := extract_short_leftmost s i hpre hlen hall hmin
    exact ⟨by rw [h]; simp, h⟩
  · intro s i hs hpre hlen12 hall12 hmin
    obtain ⟨hlen, hall⟩ := take_eleven_of_take_twelve _ hlen12 hall12
    have h := extract_watch_leftmost s i hs hpre hlen hall hmin
    exact ⟨by rw [h]; simp, h⟩

/-- C10 witness: 16 identifier characters after each pattern; the
extractor returns the first 11 rather than failing. -/
theorem C10_unanchored_truncation_witness :
    extract_video_id "youtu.be/abcdefghijklmnop" = some "abcdefghijk" ∧
    extract_video_id "watch?v=abcdefghijklmnop" = some "abcdefghijk" :=
  ⟨((C10_unanchored_truncation.1 "youtu.be/abcdefghijklmnop" 0
      (by decide) (by decide) (by decide) (by decide)).2).trans (by decide),
   ((C10_unanchored_truncation.2 "watch?v=abcdefghijklmnop" 6
      (by decide) (by decide) (by decide) (by decide) (by decide)).2).trans (by decide)⟩

example : extract_video_id "https://youtu.be/dQw4w9WgXcQ" = some "dQw4w9WgXcQ" := by decide
example : extract_video_id "youtu.be/aaaaaaaaaaa youtu.be/bbbbbbbbbbbb" = some "aaaaaaaaaaa" := by decide
example : extract_video_id "https://www.youtube.com/watch?v=dQw4w9WgXcQ" = some "dQw4w9WgXcQ" := by decide
example : extract_video_id "https://example.com/video" = none := by decide
example : extract_video_id "youtu.be/aaaaaaaaaaa and youtu.be/bbbbbbbbbbb" = some "aaaaaaaaaaa" := by decide
example : extract_video_id "v=aaaaaaaaaaa and v=bbbbbbbbbbb" = some "aaaaaaaaaaa" := by decide
example : extract_video_id "youtu.be/abcdefghijkl" = some "abcdefghijk" := by decide
example : extract_video_id "youtu.be/short?v=dQw4w9WgXcQ" = some "dQw4w9WgXcQ" := by decide
example : extract_video_id "https://youtu.be/AAAAAAAAAAA?x=v=BBBBBBBBBBB" = some "AAAAAAAAAAA" := by decide
example : String.intercalate " " ["Hello", "world"] = "Hello world" := rfl
example : specJoin ["Hello", "world"] = "Hello world" := rfl

end AZMedia
